import Mathlib

/-!
Verification of the mail-server storage core: the S3 blob backend
(crates/store/src/backend/s3/mod.rs) and the snowflake ID generator
(crates/utils/src/snowflake.rs), shallowly embedded over Nat.

Machine integers are modelled as Nat with explicit reductions modulo
2 ^ 64 wherever the Rust code can wrap (u128-to-u64 casts, u64 shifts,
the atomic counter).  Wall-clock time is an explicit parameter `now_ns`,
nanoseconds since the Unix epoch, matching SystemTime precision;
Duration values are likewise nanosecond counts.
-/

namespace MailServer

/-! ## Snowflake ID generator (crates/utils/src/snowflake.rs) -/

def SEQUENCE_LEN : Nat := 12
def NODE_ID_LEN : Nat := 9
def SEQUENCE_MASK : Nat := 2 ^ SEQUENCE_LEN - 1
def NODE_ID_MASK : Nat := 2 ^ NODE_ID_LEN - 1

/-- DEFAULT_EPOCH from the source: seconds after UNIX_EPOCH. -/
def DEFAULT_EPOCH : Nat := 1632280000

/-- The default epoch instant in nanoseconds since UNIX_EPOCH
(`SystemTime::UNIX_EPOCH + Duration::from_secs(DEFAULT_EPOCH)`). -/
def DEFAULT_EPOCH_NS : Nat := DEFAULT_EPOCH * 1000000000

/-- One u64 modulus, for the `as u64` casts and u64 shifts. -/
def U64 : Nat := 2 ^ 64

structure SnowflakeIdGenerator where
  /-- `epoch : SystemTime`, as nanoseconds since UNIX_EPOCH. -/
  epoch_ns : Nat
  /-- `node_id : u64`, stored exactly as passed to `with_node_id`. -/
  node_id : Nat
  /-- `sequence : AtomicU64`, current counter value. -/
  sequence : Nat
deriving Repr, DecidableEq

/-- `with_node_id(node_id)`: fixed default epoch, the argument stored
unmasked, sequence starting at 0.  `new()` is `with_node_id` of a random
u64, so every statement below quantified over the node id covers `new()`
as well. -/
def with_node_id (node_id : Nat) : SnowflakeIdGenerator :=
  { epoch_ns := DEFAULT_EPOCH_NS, node_id := node_id, sequence := 0 }

/-- `self.epoch.elapsed()` mapped through `as_millis`, with the
`unwrap_or_default` on a pre-epoch clock: Nat truncated subtraction
yields exactly 0 whenever `now_ns ≤ epoch_ns`, which is the
`Err => 0` path of the source. -/
def SnowflakeIdGenerator.elapsed_ms (g : SnowflakeIdGenerator) (now_ns : Nat) : Nat :=
  (now_ns - g.epoch_ns) / 1000000

/-- `generate()` for a fixed fetched sequence value: the body after the
`fetch_add`, where the stored `sequence` is the value the atomic
returned.  `(elapsed.as_millis() as u64) << 21 | (seq & SEQUENCE_MASK)
<< 9 | (node_id & NODE_ID_MASK)`, with every u64 shift reduced
mod 2 ^ 64. -/
def SnowflakeIdGenerator.generate (g : SnowflakeIdGenerator) (now_ns : Nat) : Nat :=
  let elapsed := g.elapsed_ms now_ns % U64
  let sequence := g.sequence &&& SEQUENCE_MASK
  ((elapsed <<< (SEQUENCE_LEN + NODE_ID_LEN)) % U64)
    ||| ((sequence <<< NODE_ID_LEN) % U64)
    ||| (g.node_id &&& NODE_ID_MASK)

/-- One full `generate()` call: the returned ID together with the state
left by `sequence.fetch_add(1)` (the counter is a u64 and wraps). -/
def SnowflakeIdGenerator.generateStep (g : SnowflakeIdGenerator) (now_ns : Nat) :
    Nat × SnowflakeIdGenerator :=
  (g.generate now_ns, { g with sequence := (g.sequence + 1) % U64 })

/-- `m` back-to-back `generate()` calls on one generator, all reading the
same clock value.  The only shared mutable state of a generator is the
atomic counter, and `fetch_add` is linearizable, so any interleaving of
`m` same-millisecond concurrent calls hands out exactly the counter
values this sequential composition hands out. -/
def SnowflakeIdGenerator.generateList (g : SnowflakeIdGenerator) (now_ns : Nat) :
    Nat → List Nat
  | 0 => []
  | m + 1 =>
    let p := g.generateStep now_ns
    p.1 :: p.2.generateList now_ns m

/-- `from_duration(period)`: elapsed since the default epoch, `checked_sub`
of the period, then milliseconds shifted by SEQUENCE_LEN + NODE_ID_LEN.
`elapsed()` fails iff the clock is before the epoch. -/
def from_duration (now_ns : Nat) (period_ns : Nat) : Option Nat :=
  if now_ns < DEFAULT_EPOCH_NS then none
  else if now_ns - DEFAULT_EPOCH_NS < period_ns then none
  else some (((((now_ns - DEFAULT_EPOCH_NS - period_ns) / 1000000) % U64)
    <<< (SEQUENCE_LEN + NODE_ID_LEN)) % U64)

/-- `from_timestamp(timestamp)`: seconds since UNIX_EPOCH now,
`checked_sub(timestamp)`, then `from_duration` of that many seconds.
(`duration_since(UNIX_EPOCH)` cannot fail in the Nat time model.) -/
def from_timestamp (now_ns : Nat) (timestamp : Nat) : Option Nat :=
  let now_secs := now_ns / 1000000000
  if now_secs < timestamp then none
  else from_duration now_ns ((now_secs - timestamp) * 1000000000)

/-- `past_id(period)`: same computation as `from_duration` but against the
generator's own `epoch` field. -/
def SnowflakeIdGenerator.past_id (g : SnowflakeIdGenerator) (now_ns : Nat)
    (period_ns : Nat) : Option Nat :=
  if now_ns < g.epoch_ns then none
  else if now_ns - g.epoch_ns < period_ns then none
  else some (((((now_ns - g.epoch_ns - period_ns) / 1000000) % U64)
    <<< (SEQUENCE_LEN + NODE_ID_LEN)) % U64)

/-- `is_valid()`: the clock is at or after the generator's epoch. -/
def SnowflakeIdGenerator.is_valid (g : SnowflakeIdGenerator) (now_ns : Nat) : Bool :=
  decide (g.epoch_ns ≤ now_ns)

/-! ## S3 blob backend (crates/store/src/backend/s3/mod.rs)

The remote bucket is abstracted as the sequence of outcomes the s3
client produces, one per issued request: either a transport-level `Err`
from the client, or an HTTP response carrying a status code and body.
Keys, bodies and strings are byte lists. -/

/-- Outcome of one request issued through the s3 client. -/
inductive S3Response where
  /-- The client call returned `Err` (connection, DNS, TLS, timeout):
  the transport layer failed before any HTTP status existed. -/
  | err
  /-- An HTTP response with its status code and body bytes. -/
  | resp (status_code : Nat) (body : List Nat)
deriving Repr, DecidableEq

/-- The error value a blob operation surfaces (`trc::Error`, S3Error). -/
inductive StorageError where
  /-- Built by `into_error` from a transport failure; carries no code. -/
  | transport
  /-- Built from a terminal HTTP response: `.reason(body).ctx(Code, code)`. -/
  | status (code : Nat) (body : List Nat)
deriving Repr, DecidableEq

instance {ε α : Type} [DecidableEq ε] [DecidableEq α] : DecidableEq (Except ε α) := fun
  | .ok a, .ok b =>
    if h : a = b then .isTrue (by rw [h]) else .isFalse (by simp [h])
  | .ok _, .error _ => .isFalse (by simp)
  | .error _, .ok _ => .isFalse (by simp)
  | .error a, .error b =>
    if h : a = b then .isTrue (by rw [h]) else .isFalse (by simp [h])

/-- What one blob call did: its result plus the observable request/sleep
trace (requests actually issued, backoff sleeps in seconds, in order). -/
structure CallTrace (α : Type) where
  result : Except StorageError α
  requests : Nat
  sleeps : List Nat
deriving Repr, DecidableEq

/-- The backoff delay slept while `retries_left = rl`:
`1 << (max_retries - retries_left).min(6)` seconds. -/
def backoff_delay (max_retries rl : Nat) : Nat :=
  1 <<< min (max_retries - rl) 6

/-- The retry loop of `get_blob`, from a state with `rl` retries left,
about to issue request number `i` (0-based) of this call.  Match arms in
source order: transport `Err` maps through `into_error` at once; 2xx
returns the body; 404 returns `None`; 5xx with retries left sleeps and
retries; anything else is a terminal status error. -/
def getBlobLoop (max_retries : Nat) (resp : Nat → S3Response) :
    Nat → Nat → CallTrace (Option (List Nat))
  | rl, i =>
    match resp i with
    | .err => ⟨.error .transport, 1, []⟩
    | .resp code body =>
      if 200 ≤ code ∧ code ≤ 299 then ⟨.ok (some body), 1, []⟩
      else if code = 404 then ⟨.ok none, 1, []⟩
      else if 500 ≤ code ∧ code ≤ 599 then
        match rl with
        | 0 => ⟨.error (.status code body), 1, []⟩
        | rl' + 1 =>
          let t := getBlobLoop max_retries resp rl' (i + 1)
          ⟨t.result, t.requests + 1, backoff_delay max_retries (rl' + 1) :: t.sleeps⟩
      else ⟨.error (.status code body), 1, []⟩

/-- `get_blob`: the loop started with `retries_left = max_retries`.
The byte range only selects `get_object_range` versus `get_object`; both
are requests drawn from `resp`, so the range does not appear here. -/
def get_blob (max_retries : Nat) (resp : Nat → S3Response) :
    CallTrace (Option (List Nat)) :=
  getBlobLoop max_retries resp max_retries 0

/-- The retry loop of `put_blob`: as `get_blob` but success is `()` and
there is no 404 arm. -/
def putBlobLoop (max_retries : Nat) (resp : Nat → S3Response) :
    Nat → Nat → CallTrace Unit
  | rl, i =>
    match resp i with
    | .err => ⟨.error .transport, 1, []⟩
    | .resp code body =>
      if 200 ≤ code ∧ code ≤ 299 then ⟨.ok (), 1, []⟩
      else if 500 ≤ code ∧ code ≤ 599 then
        match rl with
        | 0 => ⟨.error (.status code body), 1, []⟩
        | rl' + 1 =>
          let t := putBlobLoop max_retries resp rl' (i + 1)
          ⟨t.result, t.requests + 1, backoff_delay max_retries (rl' + 1) :: t.sleeps⟩
      else ⟨.error (.status code body), 1, []⟩

/-- `put_blob`. -/
def put_blob (max_retries : Nat) (resp : Nat → S3Response) : CallTrace Unit :=
  putBlobLoop max_retries resp max_retries 0

/-- The retry loop of `delete_blob`: 2xx returns `true`, 404 returns
`false`, otherwise as the other two loops. -/
def deleteBlobLoop (max_retries : Nat) (resp : Nat → S3Response) :
    Nat → Nat → CallTrace Bool
  | rl, i =>
    match resp i with
    | .err => ⟨.error .transport, 1, []⟩
    | .resp code body =>
      if 200 ≤ code ∧ code ≤ 299 then ⟨.ok true, 1, []⟩
      else if code = 404 then ⟨.ok false, 1, []⟩
      else if 500 ≤ code ∧ code ≤ 599 then
        match rl with
        | 0 => ⟨.error (.status code body), 1, []⟩
        | rl' + 1 =>
          let t := deleteBlobLoop max_retries resp rl' (i + 1)
          ⟨t.result, t.requests + 1, backoff_delay max_retries (rl' + 1) :: t.sleeps⟩
      else ⟨.error (.status code body), 1, []⟩

/-- `delete_blob`. -/
def delete_blob (max_retries : Nat) (resp : Nat → S3Response) : CallTrace Bool :=
  deleteBlobLoop max_retries resp max_retries 0

/-- Every request of a call is answered with a 5xx status. -/
def all5xx (resp : Nat → S3Response) : Prop :=
  ∀ i, ∃ code body, resp i = .resp code body ∧ 500 ≤ code ∧ code ≤ 599

/-! ### Key construction -/

/-- Modelled from the spec: `Base32Writer`
(crates/utils/src/codec/base32_custom.rs) is not part of the sources
under verification; the spec treats the key encoder as a pluggable
component (§2 KeyEncoder) and states that key construction produces
`encode(prefix_bytes ++ raw_key_bytes)` (§4.1).  The writer is therefore
modelled as an accumulator of input bytes whose `finalize` applies the
abstract encoder to everything accumulated: `push_string` feeds the
configured prefix string's bytes and `write_all` / `from_bytes` feed raw
key bytes. -/
structure Base32Writer where
  acc : List Nat
deriving Repr, DecidableEq

/-- Modelled from the spec: capacity is only a preallocation hint. -/
def Base32Writer.with_raw_capacity (_capacity : Nat) : Base32Writer :=
  ⟨[]⟩

/-- Modelled from the spec: append the string's bytes to the input. -/
def Base32Writer.push_string (w : Base32Writer) (s : List Nat) : Base32Writer :=
  ⟨w.acc ++ s⟩

/-- Modelled from the spec: `Write::write_all` appends the raw bytes. -/
def Base32Writer.write_all (w : Base32Writer) (bytes : List Nat) : Base32Writer :=
  ⟨w.acc ++ bytes⟩

/-- Modelled from the spec: a writer already fed the given bytes. -/
def Base32Writer.from_bytes (bytes : List Nat) : Base32Writer :=
  ⟨bytes⟩

/-- Modelled from the spec: `finalize` runs the pluggable key encoder on
the accumulated bytes. -/
def Base32Writer.finalize (encode : List Nat → List Char) (w : Base32Writer) :
    List Char :=
  encode w.acc

/-- `build_key`: with a configured `key-prefix` the writer gets the
prefix then the key bytes; without one, just the key bytes.  `encode` is
the pluggable key encoder; `pfx` is the configured prefix as bytes. -/
def build_key (encode : List Nat → List Char) (pfx : Option (List Nat))
    (key : List Nat) : List Char :=
  match pfx with
  | some p =>
    (((Base32Writer.with_raw_capacity
        (p.length + (key.length + 3) / 4 * 5)).push_string p).write_all
        key).finalize encode
  | none => (Base32Writer.from_bytes key).finalize encode

/-! ## Helper lemmas -/

/-- Disjoint 43/12/9 bit fields: the OR of the shifted fields is their
sum, whenever the middle field fits in 12 bits and the low one in 9. -/
lemma pack_lor_eq_add (e f g : Nat) (hf : f < 2 ^ 12) (hg : g < 2 ^ 9) :
    (e <<< 21) ||| (f <<< 9) ||| g = e * 2 ^ 21 + f * 2 ^ 9 + g := by
  rw [Nat.shiftLeft_eq, Nat.shiftLeft_eq, Nat.or_assoc]
  rw [Nat.mul_comm f, ← Nat.mul_add_lt_is_or hg f]
  have hlow : 2 ^ 9 * f + g < 2 ^ 21 := by nlinarith
  rw [Nat.mul_comm e, ← Nat.mul_add_lt_is_or hlow e]
  ring

/-- The u64-wrapped 21-bit left shift keeps the low 43 bits of its
argument in the high block. -/
lemma shift21_mod (x : Nat) : ((x % U64) <<< 21) % U64 = x % 2 ^ 43 * 2 ^ 21 := by
  rw [Nat.shiftLeft_eq]
  simp only [U64]
  rw [Nat.mul_comm, show (2 : Nat) ^ 64 = 2 ^ 21 * 2 ^ 43 by norm_num,
    Nat.mul_mod_mul_left, Nat.mod_mod_of_dvd _ (by norm_num), Nat.mul_comm]

/-- `generate` written as plain arithmetic: the wrapped 43-bit timestamp
block plus the 12-bit sequence field plus the 9-bit node field. -/
lemma generate_eq_add (ep n s now : Nat) :
    SnowflakeIdGenerator.generate ⟨ep, n, s⟩ now =
      ((now - ep) / 1000000 % 2 ^ 43) * 2 ^ 21 + s % 2 ^ 12 * 2 ^ 9 + n % 2 ^ 9 := by
  unfold SnowflakeIdGenerator.generate SnowflakeIdGenerator.elapsed_ms
  simp only [SEQUENCE_MASK, NODE_ID_MASK, SEQUENCE_LEN, NODE_ID_LEN, U64,
    Nat.and_pow_two_sub_one_eq_mod, Nat.shiftLeft_eq]
  have e21 : ((now - ep) / 1000000 % 2 ^ 64) * 2 ^ 21 % 2 ^ 64 =
      ((now - ep) / 1000000 % 2 ^ 43) * 2 ^ 21 := by
    have h : (2 : Nat) ^ 64 = 2 ^ 21 * 2 ^ 43 := by norm_num
    rw [Nat.mul_comm _ (2 ^ 21), h, Nat.mul_mod_mul_left, Nat.mod_mod_of_dvd _ (by norm_num),
      Nat.mul_comm]
  have s9 : s % 2 ^ 12 * 2 ^ 9 % 2 ^ 64 = s % 2 ^ 12 * 2 ^ 9 := by
    have : s % 2 ^ 12 * 2 ^ 9 < 2 ^ 64 := by
      have := Nat.mod_lt s (y := 2 ^ 12) (by norm_num)
      nlinarith
    exact Nat.mod_eq_of_lt this
  rw [e21, s9]
  have hlow : s % 2 ^ 12 * 2 ^ 9 + n % 2 ^ 9 < 2 ^ 21 := by
    have h1 := Nat.mod_lt s (y := 2 ^ 12) (by norm_num)
    have h2 := Nat.mod_lt n (y := 2 ^ 9) (by norm_num)
    nlinarith
  have hmid : n % 2 ^ 9 < 2 ^ 9 := Nat.mod_lt n (by norm_num)
  rw [Nat.or_assoc, Nat.mul_comm (s % 2 ^ 12) (2 ^ 9),
    ← Nat.mul_add_lt_is_or hmid (s % 2 ^ 12)]
  have hlow2 : 2 ^ 9 * (s % 2 ^ 12) + n % 2 ^ 9 < 2 ^ 21 := by
    rw [Nat.mul_comm]; exact hlow
  rw [Nat.mul_comm (((now - ep) / 1000000 % 2 ^ 43)) (2 ^ 21),
    ← Nat.mul_add_lt_is_or hlow2 ((now - ep) / 1000000 % 2 ^ 43)]
  ring

/-- The backoff delay as a power of two. -/
lemma backoff_delay_eq (mr rl : Nat) : backoff_delay mr rl = 2 ^ min (mr - rl) 6 := by
  simp [backoff_delay, Nat.shiftLeft_eq]

/-- Behaviour of the `get_blob` loop when every response is 5xx: from
`rl` retries left it issues `rl + 1` requests, sleeps the exponential
delays for the already-consumed retry budget, and ends in a terminal
status error. -/
lemma getBlobLoop_all5xx (mr : Nat) (resp : Nat → S3Response) (h : all5xx resp) :
    ∀ rl i, rl ≤ mr →
      (getBlobLoop mr resp rl i).requests = rl + 1 ∧
      (getBlobLoop mr resp rl i).sleeps =
        (List.range rl).map (fun j => 2 ^ min (mr - rl + j) 6) ∧
      ∃ c b, (getBlobLoop mr resp rl i).result = .error (.status c b) := by
  intro rl
  induction rl with
  | zero =>
    intro i _
    obtain ⟨c, b, hr, h5, h9⟩ := h i
    have h200 : ¬(200 ≤ c ∧ c ≤ 299) := by omega
    have h404 : ¬(c = 404) := by omega
    have h500 : 500 ≤ c ∧ c ≤ 599 := ⟨h5, h9⟩
    rw [getBlobLoop, hr]
    simp [h200, h404, h500]
  | succ rl ih =>
    intro i hle
    obtain ⟨c, b, hr, h5, h9⟩ := h i
    have h200 : ¬(200 ≤ c ∧ c ≤ 299) := by omega
    have h404 : ¬(c = 404) := by omega
    have h500 : 500 ≤ c ∧ c ≤ 599 := ⟨h5, h9⟩
    obtain ⟨ihreq, ihslp, c2, b2, ihres⟩ := ih (i + 1) (Nat.le_of_succ_le hle)
    rw [getBlobLoop, hr]
    simp only [h200, h404, h500, and_self, if_true, if_false, ite_true, ite_false,
      if_neg h200, if_neg h404, if_pos h500]
    refine ⟨by simp [ihreq], ?_, c2, b2, by simp [ihres]⟩
    simp only [ihslp, backoff_delay_eq, List.range_succ_eq_map, List.map_cons,
      List.map_map, Function.comp]
    congr 1
    simp
    intro a _
    omega

/-- Behaviour of the `put_blob` loop when every response is 5xx. -/
lemma putBlobLoop_all5xx (mr : Nat) (resp : Nat → S3Response) (h : all5xx resp) :
    ∀ rl i, rl ≤ mr →
      (putBlobLoop mr resp rl i).requests = rl + 1 ∧
      (putBlobLoop mr resp rl i).sleeps =
        (List.range rl).map (fun j => 2 ^ min (mr - rl + j) 6) ∧
      ∃ c b, (putBlobLoop mr resp rl i).result = .error (.status c b) := by
  intro rl
  induction rl with
  | zero =>
    intro i _
    obtain ⟨c, b, hr, h5, h9⟩ := h i
    have h200 : ¬(200 ≤ c ∧ c ≤ 299) := by omega
    have h500 : 500 ≤ c ∧ c ≤ 599 := ⟨h5, h9⟩
    rw [putBlobLoop, hr]
    simp [h200, h500]
  | succ rl ih =>
    intro i hle
    obtain ⟨c, b, hr, h5, h9⟩ := h i
    have h200 : ¬(200 ≤ c ∧ c ≤ 299) := by omega
    have h500 : 500 ≤ c ∧ c ≤ 599 := ⟨h5, h9⟩
    obtain ⟨ihreq, ihslp, c2, b2, ihres⟩ := ih (i + 1) (Nat.le_of_succ_le hle)
    rw [putBlobLoop, hr]
    simp only [h200, h500, and_self, if_true, if_false, ite_true, ite_false,
      if_neg h200, if_pos h500]
    refine ⟨by simp [ihreq], ?_, c2, b2, by simp [ihres]⟩
    simp only [ihslp, backoff_delay_eq, List.range_succ_eq_map, List.map_cons,
      List.map_map, Function.comp]
    congr 1
    simp
    intro a _
    omega

/-- Behaviour of the `delete_blob` loop when every response is 5xx. -/
lemma deleteBlobLoop_all5xx (mr : Nat) (resp : Nat → S3Response) (h : all5xx resp) :
    ∀ rl i, rl ≤ mr →
      (deleteBlobLoop mr resp rl i).requests = rl + 1 ∧
      (deleteBlobLoop mr resp rl i).sleeps =
        (List.range rl).map (fun j => 2 ^ min (mr - rl + j) 6) ∧
      ∃ c b, (deleteBlobLoop mr resp rl i).result = .error (.status c b) := by
  intro rl
  induction rl with
  | zero =>
    intro i _
    obtain ⟨c, b, hr, h5, h9⟩ := h i
    have h200 : ¬(200 ≤ c ∧ c ≤ 299) := by omega
    have h404 : ¬(c = 404) := by omega
    have h500 : 500 ≤ c ∧ c ≤ 599 := ⟨h5, h9⟩
    rw [deleteBlobLoop, hr]
    simp [h200, h404, h500]
  | succ rl ih =>
    intro i hle
    obtain ⟨c, b, hr, h5, h9⟩ := h i
    have h200 : ¬(200 ≤ c ∧ c ≤ 299) := by omega
    have h404 : ¬(c = 404) := by omega
    have h500 : 500 ≤ c ∧ c ≤ 599 := ⟨h5, h9⟩
    obtain ⟨ihreq, ihslp, c2, b2, ihres⟩ := ih (i + 1) (Nat.le_of_succ_le hle)
    rw [deleteBlobLoop, hr]
    simp only [h200, h404, h500, and_self, if_true, if_false, ite_true, ite_false,
      if_neg h200, if_neg h404, if_pos h500]
    refine ⟨by simp [ihreq], ?_, c2, b2, by simp [ihres]⟩
    simp only [ihslp, backoff_delay_eq, List.range_succ_eq_map, List.map_cons,
      List.map_map, Function.comp]
    congr 1
    simp
    intro a _
    omega

/-- Closed form of `m` consecutive `generate()` calls: the `i`-th ID packs
the counter value `s + i` (the sequence field wraps mod 2 ^ 12). -/
lemma generateList_eq (ep n now : Nat) :
    ∀ m s, SnowflakeIdGenerator.generateList ⟨ep, n, s⟩ now m =
      (List.range m).map (fun i =>
        ((now - ep) / 1000000 % 2 ^ 43) * 2 ^ 21 + (s + i) % 2 ^ 12 * 2 ^ 9 + n % 2 ^ 9) := by
  intro m
  induction m with
  | zero => intro s; simp [SnowflakeIdGenerator.generateList]
  | succ m ih =>
    intro s
    rw [SnowflakeIdGenerator.generateList]
    simp only [SnowflakeIdGenerator.generateStep]
    rw [ih ((s + 1) % U64), List.range_succ_eq_map, List.map_cons, List.map_map]
    simp only [List.cons.injEq]
    refine ⟨?_, ?_⟩
    · rw [generate_eq_add]
      norm_num
    · apply List.map_congr_left
      intro j _
      simp only [Function.comp_apply]
      have hmod : ((s + 1) % U64 + j) % 2 ^ 12 = (s + (j + 1)) % 2 ^ 12 := by
        simp only [U64]
        omega
      rw [hmod]

/-! ## Claims -/

/-- C1 (amended): with `max_retries = N` and every request answered by a
5xx status, each of `get_blob`, `put_blob` and `delete_blob` issues
exactly `N + 1` requests and returns a terminal status StorageError, and
the backoff delays slept between consecutive attempts are `2 ^ min(k, 6)`
seconds for `k = 0, …, N − 1` — each delay is
`2 ^ (max_retries − retries_remaining)` seconds capped at 64 seconds, so
the last delay is `2 ^ min(N − 1, 6)`, not `2 ^ min(N, 6)` as the claim
states. -/
theorem c1_retry_exhaustion (mr : Nat) (resp : Nat → S3Response) (h : all5xx resp) :
    ((get_blob mr resp).requests = mr + 1 ∧
      (get_blob mr resp).sleeps = (List.range mr).map (fun j => 2 ^ min j 6) ∧
      ∃ c b, (get_blob mr resp).result = .error (.status c b)) ∧
    ((put_blob mr resp).requests = mr + 1 ∧
      (put_blob mr resp).sleeps = (List.range mr).map (fun j => 2 ^ min j 6) ∧
      ∃ c b, (put_blob mr resp).result = .error (.status c b)) ∧
    ((delete_blob mr resp).requests = mr + 1 ∧
      (delete_blob mr resp).sleeps = (List.range mr).map (fun j => 2 ^ min j 6) ∧
      ∃ c b, (delete_blob mr resp).result = .error (.status c b)) := by
  obtain ⟨g1, g2, g3⟩ := getBlobLoop_all5xx mr resp h mr 0 (Nat.le_refl mr)
  obtain ⟨p1, p2, p3⟩ := putBlobLoop_all5xx mr resp h mr 0 (Nat.le_refl mr)
  obtain ⟨d1, d2, d3⟩ := deleteBlobLoop_all5xx mr resp h mr 0 (Nat.le_refl mr)
  refine ⟨⟨g1, ?_, g3⟩, ⟨p1, ?_, p3⟩, ⟨d1, ?_, d3⟩⟩ <;>
    simp_all [get_blob, put_blob, delete_blob, Nat.sub_self]

/-- C1 counterexample: with `max_retries = 1` and an always-5xx server,
`get_blob` sleeps once, for 1 second — not the `1, 2` (ending at
`2 ^ min(1, 6) = 2`) delays the claim's list predicts. -/
theorem c1_counterexample :
    (get_blob 1 (fun _ => S3Response.resp 500 [])).sleeps = [1] ∧
    ([1] : List Nat) ≠ [1, 2] ∧ ([1] : List Nat) ≠ [2] := by decide

/-- C1 witness: `max_retries = 1`, always-500 server: 2 requests, one
1-second sleep. -/
theorem c1_witness :
    (get_blob 1 (fun _ => S3Response.resp 500 [])).requests = 2 ∧
    (get_blob 1 (fun _ => S3Response.resp 500 [])).sleeps = [1] := by
  have h := c1_retry_exhaustion 1 (fun _ => S3Response.resp 500 [])
    (fun i => ⟨500, [], rfl, by norm_num, by norm_num⟩)
  exact ⟨h.1.1, h.1.2.1.trans (by decide)⟩

/-- C2: with a configured key prefix the storage path is
`encode(prefix_bytes ++ raw_key_bytes)`, otherwise `encode(raw_key_bytes)`,
for every pluggable encoder, prefix and key (Base32Writer modelled from
the spec, see its doc comment). -/
theorem c2_build_key (encode : List Nat → List Char) (p key : List Nat) :
    build_key encode (some p) key = encode (p ++ key) ∧
    build_key encode none key = encode key := by
  constructor
  · simp [build_key, Base32Writer.with_raw_capacity, Base32Writer.push_string,
      Base32Writer.write_all, Base32Writer.finalize]
  · rfl

/-- C3: whenever the elapsed milliseconds `e` fit in 43 bits, `generate`
returns exactly `(e <<< 21) ||| ((s % 4096) <<< 9) ||| (n % 512)`; the
top 43 bits hold `e`, the next 12 the sequence, the low 9 the node id;
and `with_node_id` stores its argument unmasked (the node id is masked
only at generation time). -/
theorem c3_packing (ep n s now : Nat) (he : (now - ep) / 1000000 < 2 ^ 43) :
    SnowflakeIdGenerator.generate ⟨ep, n, s⟩ now =
      (((now - ep) / 1000000) <<< 21) ||| ((s % 4096) <<< 9) ||| (n % 512) ∧
    SnowflakeIdGenerator.generate ⟨ep, n, s⟩ now / 2 ^ 21 = (now - ep) / 1000000 ∧
    SnowflakeIdGenerator.generate ⟨ep, n, s⟩ now / 2 ^ 9 % 2 ^ 12 = s % 4096 ∧
    SnowflakeIdGenerator.generate ⟨ep, n, s⟩ now % 2 ^ 9 = n % 512 ∧
    (with_node_id n).node_id = n := by
  have hf : s % 4096 < 2 ^ 12 := by omega
  have hg : n % 512 < 2 ^ 9 := by omega
  have hadd := generate_eq_add ep n s now
  rw [Nat.mod_eq_of_lt he] at hadd
  refine ⟨?_, ?_, ?_, ?_, rfl⟩
  · rw [hadd, pack_lor_eq_add _ _ _ hf hg]
    norm_num
  · rw [hadd]
    norm_num
    omega
  · rw [hadd]
    norm_num
    omega
  · rw [hadd]
    norm_num
    omega

/-- C3 witness: at 3 elapsed milliseconds, sequence 5000 and node 1000
the packed value matches the claimed formula, and `with_node_id 1000`
keeps 1000 although 1000 does not fit in 9 bits. -/
theorem c3_witness :
    SnowflakeIdGenerator.generate ⟨0, 1000, 5000⟩ 3000000 =
      ((3 : Nat) <<< 21) ||| (((5000 : Nat) % 4096) <<< 9) ||| ((1000 : Nat) % 512) ∧
    (with_node_id 1000).node_id = 1000 := by
  have h := c3_packing 0 1000 5000 3000000 (by norm_num)
  exact ⟨by simpa using h.1, h.2.2.2.2⟩

/-- C4: two calls on the same generator whose elapsed-millisecond values
satisfy `e1 < e2`, both fitting in 43 bits, return numerically strictly
increasing IDs regardless of the sequence values fetched. -/
theorem c4_monotonic (ep n s1 s2 now1 now2 : Nat)
    (hlt : (now1 - ep) / 1000000 < (now2 - ep) / 1000000)
    (hfit : (now2 - ep) / 1000000 < 2 ^ 43) :
    SnowflakeIdGenerator.generate ⟨ep, n, s1⟩ now1 <
      SnowflakeIdGenerator.generate ⟨ep, n, s2⟩ now2 := by
  rw [generate_eq_add, generate_eq_add]
  rw [Nat.mod_eq_of_lt (lt_trans hlt hfit), Nat.mod_eq_of_lt hfit]
  norm_num
  omega

/-- C4 witness: 1 ms with top sequence 4095 is below 2 ms with
sequence 0. -/
theorem c4_witness :
    SnowflakeIdGenerator.generate ⟨0, 0, 4095⟩ 1000000 <
      SnowflakeIdGenerator.generate ⟨0, 0, 0⟩ 2000000 :=
  c4_monotonic 0 0 4095 0 1000000 2000000 (by norm_num) (by norm_num)

/-- C5: a transport-layer failure at any point of any of the three retry
loops — whatever the retry budget still remaining — returns a transport
StorageError from that attempt alone: one request, no sleep, no further
request. -/
theorem c5_transport_immediate (mr rl i : Nat) (resp : Nat → S3Response)
    (h : resp i = .err) :
    getBlobLoop mr resp rl i = ⟨.error .transport, 1, []⟩ ∧
    putBlobLoop mr resp rl i = ⟨.error .transport, 1, []⟩ ∧
    deleteBlobLoop mr resp rl i = ⟨.error .transport, 1, []⟩ := by
  refine ⟨?_, ?_, ?_⟩
  · rw [getBlobLoop, h]
  · rw [putBlobLoop, h]
  · rw [deleteBlobLoop, h]

/-- C5 witness: transport failure with 2 retries still remaining out of
`max_retries = 3`. -/
theorem c5_witness :
    getBlobLoop 3 (fun _ => S3Response.err) 2 0 = ⟨.error .transport, 1, []⟩ ∧
    putBlobLoop 3 (fun _ => S3Response.err) 2 0 = ⟨.error .transport, 1, []⟩ ∧
    deleteBlobLoop 3 (fun _ => S3Response.err) 2 0 = ⟨.error .transport, 1, []⟩ :=
  c5_transport_immediate 3 2 0 (fun _ => S3Response.err) rfl

/-- C6: a 404 on the first attempt makes `get_blob` return `none` and
`delete_blob` return `false`, both as successes, after exactly one
request and no sleep, for every `max_retries`. -/
theorem c6_notfound (mr : Nat) (resp : Nat → S3Response) (body : List Nat)
    (h : resp 0 = .resp 404 body) :
    get_blob mr resp = ⟨.ok none, 1, []⟩ ∧
    delete_blob mr resp = ⟨.ok false, 1, []⟩ := by
  constructor
  · rw [get_blob, getBlobLoop, h]
    norm_num
  · rw [delete_blob, deleteBlobLoop, h]
    norm_num

/-- C6 witness: a 404 server with `max_retries = 3`. -/
theorem c6_witness :
    get_blob 3 (fun _ => S3Response.resp 404 []) = ⟨.ok none, 1, []⟩ ∧
    delete_blob 3 (fun _ => S3Response.resp 404 []) = ⟨.ok false, 1, []⟩ :=
  c6_notfound 3 (fun _ => S3Response.resp 404 []) [] rfl

/-- C7: `generate` is total in the embedding, and when the clock reads a
time before the generator's epoch the elapsed value saturates to 0: the
returned ID is `((s % 4096) <<< 9) ||| (n % 512)`, determined solely by
sequence and node id (the right-hand side does not mention the clock). -/
theorem c7_pre_epoch (ep n s now : Nat) (h : now < ep) :
    SnowflakeIdGenerator.generate ⟨ep, n, s⟩ now =
      ((s % 4096) <<< 9) ||| (n % 512) := by
  have hf : s % 4096 < 2 ^ 12 := by omega
  have hg : n % 512 < 2 ^ 9 := by omega
  have hp := pack_lor_eq_add 0 (s % 4096) (n % 512) hf hg
  simp only [Nat.zero_shiftLeft, Nat.zero_or, Nat.zero_mul, Nat.zero_add] at hp
  rw [generate_eq_add, show now - ep = 0 by omega, hp]
  norm_num

/-- C7 witness: clock at 7 ns, epoch at 10 ns. -/
theorem c7_witness :
    SnowflakeIdGenerator.generate ⟨10, 3, 5⟩ 7 =
      (((5 : Nat) % 4096) <<< 9) ||| ((3 : Nat) % 512) :=
  c7_pre_epoch 10 3 5 7 (by norm_num)

/-- C8: with a clock at or past the epoch, `from_duration period` is
`none` exactly when the period exceeds the elapsed time since the
default epoch; `from_timestamp ts` is `none` whenever `ts` is in the
future; and every returned value has its low 21 bits zero and is the
elapsed-milliseconds quantity shifted left by 21 bits. -/
theorem c8_epoch_helpers (now_ns period_ns ts : Nat) :
    (DEFAULT_EPOCH_NS ≤ now_ns →
      (from_duration now_ns period_ns = none ↔ now_ns - DEFAULT_EPOCH_NS < period_ns)) ∧
    (now_ns / 1000000000 < ts → from_timestamp now_ns ts = none) ∧
    (∀ v, from_duration now_ns period_ns = some v →
      v % 2 ^ 21 = 0 ∧
      ((now_ns - DEFAULT_EPOCH_NS - period_ns) / 1000000 < 2 ^ 43 →
        v = ((now_ns - DEFAULT_EPOCH_NS - period_ns) / 1000000) <<< 21)) := by
  refine ⟨?_, ?_, ?_⟩
  · intro hge
    rcases Nat.lt_or_ge (now_ns - DEFAULT_EPOCH_NS) period_ns with h2 | h2
    · simp [from_duration, if_neg (by omega : ¬ now_ns < DEFAULT_EPOCH_NS), h2]
    · simp [from_duration, if_neg (by omega : ¬ now_ns < DEFAULT_EPOCH_NS),
        if_neg (by omega : ¬ now_ns - DEFAULT_EPOCH_NS < period_ns)]
      omega
  · intro hlt
    simp [from_timestamp, hlt]
  · intro v hv
    rw [from_duration] at hv
    split_ifs at hv with h1 h2
    injection hv with hv
    rw [← hv, show SEQUENCE_LEN + NODE_ID_LEN = 21 from rfl, shift21_mod]
    constructor
    · exact Nat.mul_mod_left _ _
    · intro hfit
      rw [Nat.mod_eq_of_lt hfit, Nat.shiftLeft_eq]

/-- C8 witness: a 1 ns period at the epoch instant underflows; a
timestamp one second in the future underflows; and 1 ms past the epoch
with a zero period yields `2 ^ 21`, low 21 bits zero. -/
theorem c8_witness :
    from_duration DEFAULT_EPOCH_NS 1 = none ∧
    from_timestamp DEFAULT_EPOCH_NS (DEFAULT_EPOCH + 1) = none ∧
    (2 ^ 21 : Nat) % 2 ^ 21 = 0 ∧
    (2 ^ 21 : Nat) =
      ((DEFAULT_EPOCH_NS + 1000000 - DEFAULT_EPOCH_NS - 0) / 1000000) <<< 21 := by
  have h1 := c8_epoch_helpers DEFAULT_EPOCH_NS 1 (DEFAULT_EPOCH + 1)
  have h2 := c8_epoch_helpers (DEFAULT_EPOCH_NS + 1000000) 0 (DEFAULT_EPOCH + 1)
  have hv : from_duration (DEFAULT_EPOCH_NS + 1000000) 0 = some (2 ^ 21) := by decide
  obtain ⟨hz, hsh⟩ := h2.2.2 (2 ^ 21) hv
  exact ⟨(h1.1 (Nat.le_refl _)).mpr (by omega), h1.2.1 (by decide), hz, hsh (by decide)⟩

/-- C9: `m ≤ 4096` same-millisecond calls on one generator (the atomic
`fetch_add` linearizes any concurrent schedule into this sequence) yield
sequence fields that are exactly `s0, s0 + 1, …` reduced mod 4096 —
consecutive counter values, i.e. strictly increasing modulo 4096 — all
pairwise distinct, and the `m` returned 64-bit IDs are pairwise
distinct. -/
theorem c9_concurrent (ep n s0 now m : Nat) (hm : m ≤ 4096) :
    ((SnowflakeIdGenerator.generateList ⟨ep, n, s0⟩ now m).map
        (fun id => id / 2 ^ 9 % 2 ^ 12) =
      (List.range m).map (fun i => (s0 + i) % 4096)) ∧
    ((SnowflakeIdGenerator.generateList ⟨ep, n, s0⟩ now m).map
        (fun id => id / 2 ^ 9 % 2 ^ 12)).Nodup ∧
    (SnowflakeIdGenerator.generateList ⟨ep, n, s0⟩ now m).Nodup := by
  have hfields : (SnowflakeIdGenerator.generateList ⟨ep, n, s0⟩ now m).map
      (fun id => id / 2 ^ 9 % 2 ^ 12) =
      (List.range m).map (fun i => (s0 + i) % 4096) := by
    rw [generateList_eq, List.map_map]
    apply List.map_congr_left
    intro i _
    simp only [Function.comp_apply]
    omega
  refine ⟨hfields, ?_, ?_⟩
  · rw [hfields]
    apply List.Nodup.map_on ?_ (List.nodup_range m)
    intro i hi j hj hij
    simp only [List.mem_range] at hi hj
    omega
  · rw [generateList_eq]
    apply List.Nodup.map_on ?_ (List.nodup_range m)
    intro i hi j hj hij
    simp only [List.mem_range] at hi hj
    omega

/-- C9 witness: two calls starting at sequence 4095 give fields
4095 and 0, and two distinct IDs. -/
theorem c9_witness :
    ((SnowflakeIdGenerator.generateList ⟨0, 0, 4095⟩ 0 2).map
      (fun id => id / 2 ^ 9 % 2 ^ 12) = [4095, 0]) ∧
    (SnowflakeIdGenerator.generateList ⟨0, 0, 4095⟩ 0 2).Nodup := by
  have h := c9_concurrent 0 0 4095 0 2 (by norm_num)
  exact ⟨h.1.trans (by decide), h.2.2⟩

/-- C10: for every generator built by `with_node_id` (hence also `new()`)
and all instants and periods, `past_id` agrees with `from_duration`, and
the generator's epoch is the fixed default epoch, 1632280000 seconds
after the Unix epoch. -/
theorem c10_past_id_refines (n now_ns period_ns : Nat) :
    (with_node_id n).past_id now_ns period_ns = from_duration now_ns period_ns ∧
    (with_node_id n).epoch_ns = DEFAULT_EPOCH * 1000000000 := ⟨rfl, rfl⟩

end MailServer
